import Mathlib

/-!
Verification development for the Apptainer OCI image-to-rootfs materialization
pipeline (`internal/pkg/build/sources/oci_unpack.go`) and the remote-listing
routine (`RemoteList`).

The Go source is shallowly embedded: pure computations become Lean functions,
external collaborators (registry image source, umoci layout writer, the
operating system) become explicit inputs describing their outcomes, and the
orchestrator's observable side effects (filesystem mutations, warning output)
are recorded as explicit traces.
-/

namespace Apptainer

/-! ## Media-type constants

From `github.com/opencontainers/image-spec/specs-go/v1` (the constants the Go
code references) and the literal strings in `unpackRootfs`'s layer loop. -/

def MediaTypeImageManifest : String := "application/vnd.oci.image.manifest.v1+json"

def MediaTypeImageConfig : String := "application/vnd.oci.image.config.v1+json"

def dockerLayerTarGzip : String := "application/vnd.docker.image.rootfs.diff.tar.gzip"

def dockerLayerTar : String := "application/vnd.docker.image.rootfs.diff.tar"

def ociLayerTarGzip : String := "application/vnd.oci.image.layer.v1.tar+gzip"

def ociLayerTar : String := "application/vnd.oci.image.layer.v1.tar"

/-! ## Manifest data model

`imgspecv1.Manifest`: a config descriptor plus an ordered list of layer
descriptors.  A descriptor carries a media type plus content-addressing data
that is opaque to this pipeline (digest and size stand in for it). -/

structure Descriptor where
  mediaType : String
  digest : String
  size : Int
deriving Repr, DecidableEq

structure Manifest where
  schemaVersion : Nat
  config : Descriptor
  layers : List Descriptor
deriving Repr, DecidableEq

/-- Go zero value of `imgspecv1.Descriptor`: empty strings, zero size. -/
def zeroDescriptor : Descriptor := { mediaType := "", digest := "", size := 0 }

/-- Go zero value of `imgspecv1.Manifest`, the state `var manifest` has when
`json.Unmarshal` fails and its error is discarded. -/
def zeroManifest : Manifest := { schemaVersion := 0, config := zeroDescriptor, layers := [] }

/-! ## Manifest normalization (oci_unpack.go lines 93-102)

Line 93 forces the config media type to the OCI image-config type; the loop at
lines 95-102 rewrites the two known Docker layer media types to their OCI
equivalents in place and leaves every other media type untouched. -/

/-- Body of the `switch` in the layer loop, applied to one layer descriptor. -/
def normalizeLayerMediaType (d : Descriptor) : Descriptor :=
  if d.mediaType = dockerLayerTarGzip then { d with mediaType := ociLayerTarGzip }
  else if d.mediaType = dockerLayerTar then { d with mediaType := ociLayerTar }
  else d

/-- The in-place manifest rewriting of lines 93-102: force the config media
type, then rewrite each layer descriptor's media type. -/
def normalizeManifest (m : Manifest) : Manifest :=
  { m with
    config := { m.config with mediaType := MediaTypeImageConfig },
    layers := m.layers.map normalizeLayerMediaType }

/-! ## Permission invariant scanner (oci_unpack.go lines 134-170)

`checkPerms` walks the rootfs with `fs.PermWalkRaiseError`, raising a locally
defined sentinel error `errRestrictivePerm` on the first policy violation, and
converts that sentinel into three fixed advisory warnings at the boundary.

What the walk callback observes for one filesystem entry: either a usable
`os.FileInfo` (directory flag and permission bits), or an access failure that
is a permission error (`os.IsPermission`), or some other access failure. -/

inductive EntryAccess where
  | ok (isDir : Bool) (permBits : Nat)
  | errPermission
  | errOther (msg : String)
deriving Repr, DecidableEq

/-- Errors the walk callback can raise: the `errRestrictivePerm` sentinel, or
the wrapping `fmt.Errorf("unable to access rootfs path %s: %s", path, err)`. -/
inductive WalkErr where
  | restrictivePerm
  | accessWrap (path : String) (msg : String)
deriving Repr, DecidableEq

/-- The per-entry evaluator passed to the walk (oci_unpack.go lines 142-159). -/
def checkPermsWalkFn (path : String) (entry : EntryAccess) : Option WalkErr :=
  match entry with
  | .errPermission => some .restrictivePerm
  | .errOther msg => some (.accessWrap path msg)
  | .ok isDir permBits =>
    if isDir ∧ permBits &&& 0o700 ≠ 0o700 then some .restrictivePerm else none

/-- Modelled from the spec: `fs.PermWalkRaiseError` (from
`internal/pkg/util/fs`, not under `src/`) is the "filesystem walker primitive:
visits every entry under a root, invoking a caller-supplied per-entry evaluator
that may itself signal early termination" — the walk stops at the first error
the evaluator returns and propagates it.  A walk is represented by the ordered
list of entries (path plus access outcome) it would visit. -/
def PermWalkRaiseError (entries : List (String × EntryAccess))
    (fn : String → EntryAccess → Option WalkErr) : Option WalkErr :=
  match entries with
  | [] => none
  | (p, e) :: rest =>
    match fn p e with
    | some w => some w
    | none => PermWalkRaiseError rest fn

/-! The three fixed advisory messages emitted when the sentinel is caught
(oci_unpack.go lines 163-165). -/

def warnRmFails : String := "The sandbox contain files/dirs that cannot be removed with 'rm'."

def warnChmodHint : String := "Use 'chmod -R u+rwX' to set permissions that allow removal."

def warnFixPermsFlag : String := "Use the '--fix-perms' option to 'apptainer build' to modify permissions at build time."

/-- `checkPerms` (oci_unpack.go lines 137-170): run the permission walk; if the
sentinel comes back, emit the three advisory warnings and return success;
otherwise return the walk's result unchanged.  The returned pair is (error
result, warnings emitted). -/
def checkPerms (entries : List (String × EntryAccess)) : Option WalkErr × List String :=
  let err := PermWalkRaiseError entries checkPermsWalkFn
  if err = some WalkErr.restrictivePerm then
    (none, [warnRmFails, warnChmodHint, warnFixPermsFlag])
  else
    (err, [])

/-! ## Privilege mode resolver (oci_unpack.go lines 56-72) -/

/-- `idtools.ParseMapping` result: container-side base ID, host-side base ID,
count (umoci's `rspec.LinuxIDMapping`). -/
structure IdMapping where
  containerID : Nat
  hostID : Nat
  size : Nat
deriving Repr, DecidableEq

/-- `umocilayer.MapOptions`: Go zero value has empty mapping slices and
`Rootless = false`. -/
structure MapOptions where
  rootless : Bool := false
  uidMappings : List IdMapping := []
  gidMappings : List IdMapping := []
deriving Repr, DecidableEq

/-- Modelled from the spec: the external umoci `idtools.ParseMapping` (out of
scope per the spec), applied by the code only to the programmatically produced
string `fmt.Sprintf("0:%d:1", id)`, yields the single descriptor
`(0, id, 1)`; per the spec the failure branch (`MappingConstructionError`) is
"defensive; should not occur" on these strings, so the model is total. -/
def parseSelfMapping (hostID : Nat) : IdMapping :=
  { containerID := 0, hostID := hostID, size := 1 }

/-- Construction of `mapOptions` in `unpackRootfs` (lines 37, 56-72): start
from the zero value; when the process is unprivileged, set rootless and append
one UID mapping for the effective UID and one GID mapping for the effective
GID. -/
def buildMapOptions (unprivileged : Bool) (euid egid : Nat) : MapOptions :=
  if unprivileged then
    { rootless := true,
      uidMappings := [parseSelfMapping euid],
      gidMappings := [parseSelfMapping egid] }
  else
    {}

/-! ## Rootfs unpacker orchestrator (oci_unpack.go lines 36-132)

External collaborators (umoci layout writer, registry image source, JSON
decoder, `sytypes.FixPerms`) are represented by an environment recording the
outcome each would produce on this invocation; the orchestrator's filesystem
side effects are recorded as an ordered action trace. -/

/-- Build options carried by the bundle (`b.Opts`). -/
structure BundleOpts where
  fixPerms : Bool
  sandboxTarget : Bool
deriving Repr, DecidableEq

/-- `sytypes.Bundle`: the fields `unpackRootfs` reads. -/
structure Bundle where
  tmpDir : String
  rootfsPath : String
  opts : BundleOpts
deriving Repr, DecidableEq

/-- The error kinds `unpackRootfs` can return, one per `fmt.Errorf` site plus
the pass-through of `checkPerms`'s result. -/
inductive UnpackError where
  | layoutOpen (msg : String)
  | imageSource (msg : String)
  | manifestFetch (msg : String)
  | manifestType (mediaType : String)
  | unpack (msg : String)
  | fixPermsFailed (msg : String)
  | walk (w : WalkErr)
deriving Repr, DecidableEq

/-- Observable side effects of `unpackRootfs`, in program order:
`os.RemoveAll(b.RootfsPath)`, the call to the external
`umocilayer.UnpackRootfs` (with the manifest and map options it receives),
`sytypes.FixPerms`, and the `checkPerms` scan. -/
inductive Action where
  | removeAll (path : String)
  | unpackCall (path : String) (m : Manifest) (opts : MapOptions)
  | fixPermsCall (path : String)
  | checkPermsCall (path : String)
deriving Repr, DecidableEq

/-- Outcomes of the external collaborators for one invocation of
`unpackRootfs`.  The fetched manifest body is represented by the outcome of
JSON-decoding it (`json.Unmarshal` is external): `some m` for a well-formed
body decoding to `m`, `none` for a malformed body.  `rootfsEntries` is the
walk of the rootfs tree as it exists after a successful unpack. -/
structure UnpackEnv where
  unprivileged : Bool
  euid : Nat
  egid : Nat
  layoutOk : Bool
  imageSourceOk : Bool
  fetched : Option (Option Manifest × String)
  unpackOk : Bool
  fixPermsOk : Bool
  rootfsEntries : List (String × EntryAccess)
deriving Repr, DecidableEq

/-- Result of `sytypes.FixPerms(b.RootfsPath)` as seen by the orchestrator. -/
def fixPermsResult (env : UnpackEnv) : Option UnpackError :=
  if env.fixPermsOk then none else some (.fixPermsFailed "fix perms failed")

/-- The warning printed on entry to the fix-perms branch (line 117). -/
def warnFixPermsModifies : String := "The --fix-perms option modifies the filesystem permissions on the resulting container."

/-- `unpackRootfs` (oci_unpack.go lines 36-132).  Returns the error result
(`none` = success), the warnings emitted, and the ordered trace of observable
actions.  Notes kept from the source:
line 92 discards `json.Unmarshal`'s error, so a malformed manifest body leaves
`manifest` at its Go zero value and execution continues; line 105 removes any
pre-existing rootfs path right before the unpack call; lines 116-131 give the
fix-perms branch priority over the sandbox scan. -/
def unpackRootfs (env : UnpackEnv) (b : Bundle) :
    Option UnpackError × List String × List Action :=
  let mapOptions := buildMapOptions env.unprivileged env.euid env.egid
  if ¬ env.layoutOk then (some (.layoutOpen "error opening layout"), [], [])
  else if ¬ env.imageSourceOk then (some (.imageSource "error creating image source"), [], [])
  else
    match env.fetched with
    | none => (some (.manifestFetch "error obtaining manifest source"), [], [])
    | some (decoded, mediaType) =>
      if mediaType ≠ MediaTypeImageManifest then
        (some (.manifestType mediaType), [], [])
      else
        let manifest := normalizeManifest (decoded.getD zeroManifest)
        let pre : List Action :=
          [.removeAll b.rootfsPath, .unpackCall b.rootfsPath manifest mapOptions]
        if ¬ env.unpackOk then (some (.unpack "error unpacking rootfs"), [], pre)
        else if b.opts.fixPerms then
          (fixPermsResult env, [warnFixPermsModifies], pre ++ [.fixPermsCall b.rootfsPath])
        else if b.opts.sandboxTarget then
          let scanRes := checkPerms env.rootfsEntries
          ((scanRes.1).map .walk, scanRes.2, pre ++ [.checkPermsCall b.rootfsPath])
        else
          (none, [], pre)

/-! ## Remote listing (`RemoteList`, cmd-level glue source)

`RemoteList` opens the user configuration file with `O_RDONLY|O_CREATE` (mode
0600), parses it, merges the system configuration, and prints the remotes.
The name ordering (lines 48-64): a `sort.Slice` with a system-remotes-first
comparator, immediately followed by `sort.Strings` over the same slice. -/

/-- The `less` function given to `sort.Slice` (lines 53-63): system remotes
order before non-system ones; within a group, plain string order. -/
def remoteSysFirstLess (system : String → Bool) (a b : String) : Bool :=
  if system a ∧ ¬ system b then true
  else if ¬ system a ∧ system b then false
  else a < b

/-- The two-sort sequence of lines 48-64 as the code performs it: first sort
the names with the system-first comparator, then sort the result again with
plain string order (`sort.Strings`).  Go's `sort.Slice` is an arbitrary
(unstable) comparison sort; it is modelled here by `mergeSort` over the
comparator's non-strict companion — the theorems below show the final result
is the same for every permutation the first sort could produce. -/
def remoteListNamesGo (system : String → Bool) (names : List String) : List String :=
  let first := names.mergeSort (fun a b => ¬ remoteSysFirstLess system b a)
  first.mergeSort

/-- The ordering the spec's words describe for the final display: a single
plain alphabetical (lexicographic string) sort. -/
def remoteListNamesAlphabetical (names : List String) : List String :=
  names.mergeSort

/-! ### RemoteList open/parse/listing pipeline (lines 25-95) -/

/-- Result of `os.OpenFile(usrConfigFile, O_RDONLY|O_CREATE, 0600)`. -/
inductive OpenResult where
  | opened (created : Bool)
  | errNotExist
deriving Repr, DecidableEq

/-- Modelled from POSIX `open(2)` semantics for Go's `os.OpenFile` with
`O_CREATE` (external to the repository): an existing file opens as is; a
missing file under an existing writable parent directory is created empty and
opened; a missing parent directory fails with a not-exist error (the case
`os.IsNotExist` recognizes). -/
def openFileCreate (fileExists parentOk : Bool) : OpenResult :=
  if fileExists then .opened false
  else if parentOk then .opened true
  else .errNotExist

/-- Remote configuration contents relevant to the listing: the remote names
with their `System` flags. -/
structure RemoteConf where
  remotes : List (String × Bool)
deriving Repr, DecidableEq

/-- Modelled from the spec: `remote.ReadFrom` (repository code not under
`src/`; the spec treats the listing as glue) parses the configuration file; an
empty, just-created file holds no remotes, so it yields the empty
configuration. -/
def readFromEmptyFile : RemoteConf := { remotes := [] }

/-- Environment of one `RemoteList` call: filesystem state at the user config
path, the parse outcome of the pre-existing file's contents (`none` =
malformed), and the system-level remotes `syncSysConfig` merges in. -/
structure RemoteListEnv where
  fileExists : Bool
  parentOk : Bool
  parsedUserConf : Option RemoteConf
  sysRemotes : List String
deriving Repr, DecidableEq

/-- Observable outcome of `RemoteList`. -/
inductive RemoteListOutcome where
  | errNoRemoteConfigurations
  | errParse
  | listing (createdFile : Bool) (names : List String)
deriving Repr, DecidableEq

/-- System-flag lookup over a merged remote list (Go consults
`c.Remotes[n].System`). -/
def remoteSystemFlag (remotes : List (String × Bool)) (n : String) : Bool :=
  ((remotes.lookup n).getD false)

/-- `RemoteList` (part_000 lines 25-95): open the user config with the create
flag, mapping a not-exist failure to the "no remote configurations" error;
parse the file (a just-created file is empty); merge the system remotes
(`syncSysConfig`, modelled from the spec as glue that adds the system-defined
remotes with their `System` flag set); display the names after the two-sort
sequence. -/
def RemoteList (env : RemoteListEnv) : RemoteListOutcome :=
  match openFileCreate env.fileExists env.parentOk with
  | .errNotExist => .errNoRemoteConfigurations
  | .opened created =>
    let parsed := if created then some readFromEmptyFile else env.parsedUserConf
    match parsed with
    | none => .errParse
    | some conf =>
      let merged := conf.remotes ++ env.sysRemotes.map (fun n => (n, true))
      let names := merged.map Prod.fst
      .listing created (remoteListNamesGo (remoteSystemFlag merged) names)

/-! ## Helper lemmas -/

theorem dockerTar_ne_dockerGzip : dockerLayerTar ≠ dockerLayerTarGzip := by decide

theorem ociGzip_ne_dockerGzip : ociLayerTarGzip ≠ dockerLayerTarGzip := by decide

theorem ociGzip_ne_dockerTar : ociLayerTarGzip ≠ dockerLayerTar := by decide

theorem ociTar_ne_dockerGzip : ociLayerTar ≠ dockerLayerTarGzip := by decide

theorem ociTar_ne_dockerTar : ociLayerTar ≠ dockerLayerTar := by decide

theorem normalizeLayerMediaType_idem (d : Descriptor) :
    normalizeLayerMediaType (normalizeLayerMediaType d) = normalizeLayerMediaType d := by
  unfold normalizeLayerMediaType
  by_cases h1 : d.mediaType = dockerLayerTarGzip
  · simp [h1, ociGzip_ne_dockerGzip, ociGzip_ne_dockerTar]
  · by_cases h2 : d.mediaType = dockerLayerTar
    · simp [h1, h2, dockerTar_ne_dockerGzip, ociTar_ne_dockerGzip, ociTar_ne_dockerTar]
    · simp [h1, h2]

/-! ## Claim theorems -/

/-- C5: normalization rewrites each layer descriptor whose media type is the
Docker gzipped-tar type to the OCI gzipped-tar layer type and each with the
Docker plain-tar type to the OCI plain-tar layer type, touching no other field
of the descriptor; every other layer media type is left unchanged; and the
manifest normalization (layer rewriting plus forcing the config media type to
the OCI image-config type) is idempotent. -/
theorem normalizeManifest_rewrite_idem (m : Manifest) (d : Descriptor)
    (dig : String) (sz : Int) :
    normalizeLayerMediaType { mediaType := dockerLayerTarGzip, digest := dig, size := sz } =
      { mediaType := ociLayerTarGzip, digest := dig, size := sz } ∧
    normalizeLayerMediaType { mediaType := dockerLayerTar, digest := dig, size := sz } =
      { mediaType := ociLayerTar, digest := dig, size := sz } ∧
    (d.mediaType ≠ dockerLayerTarGzip → d.mediaType ≠ dockerLayerTar →
      normalizeLayerMediaType d = d) ∧
    (normalizeManifest m).layers = m.layers.map normalizeLayerMediaType ∧
    (normalizeManifest m).config = { m.config with mediaType := MediaTypeImageConfig } ∧
    normalizeManifest (normalizeManifest m) = normalizeManifest m := by
  refine ⟨?_, ?_, ?_, rfl, rfl, ?_⟩
  · simp [normalizeLayerMediaType]
  · simp [normalizeLayerMediaType, dockerTar_ne_dockerGzip]
  · intro h1 h2
    simp [normalizeLayerMediaType, h1, h2]
  · simp [normalizeManifest, Function.comp, normalizeLayerMediaType_idem]

/-- Witness for C5: the unrecognized-media-type conjunct of
`normalizeManifest_rewrite_idem` evaluated at a concrete descriptor. -/
theorem normalizeManifest_rewrite_idem_witness :
    normalizeLayerMediaType { mediaType := "application/foo", digest := "d", size := 3 } =
      { mediaType := "application/foo", digest := "d", size := 3 } :=
  (normalizeManifest_rewrite_idem zeroManifest
      { mediaType := "application/foo", digest := "d", size := 3 } "" 0).2.2.1
    (by decide) (by decide)

/-- C4: in unprivileged mode the constructed mapping options are rootless and
hold exactly one UID descriptor (container 0, host effective UID, count 1) and
exactly one GID descriptor (container 0, host effective GID, count 1); in
privileged mode they are non-rootless with both mapping lists empty. -/
theorem buildMapOptions_cases (euid egid : Nat) :
    buildMapOptions true euid egid =
      { rootless := true,
        uidMappings := [{ containerID := 0, hostID := euid, size := 1 }],
        gidMappings := [{ containerID := 0, hostID := egid, size := 1 }] } ∧
    buildMapOptions false euid egid =
      { rootless := false, uidMappings := [], gidMappings := [] } :=
  ⟨rfl, rfl⟩

/-- C7: the per-entry evaluator raises the sentinel on a permission-classified
access failure, wraps any other access failure into a hard error carrying the
path, raises the sentinel on an accessible directory whose permission bits do
not include all of owner read, write and execute, accepts an accessible
directory whose bits do include them, and never raises a violation from the
mode bits of an accessible non-directory. -/
theorem checkPermsWalkFn_classification (path msg : String) (permBits : Nat) :
    checkPermsWalkFn path .errPermission = some .restrictivePerm ∧
    checkPermsWalkFn path (.errOther msg) = some (.accessWrap path msg) ∧
    (permBits &&& 0o700 ≠ 0o700 →
      checkPermsWalkFn path (.ok true permBits) = some .restrictivePerm) ∧
    (permBits &&& 0o700 = 0o700 →
      checkPermsWalkFn path (.ok true permBits) = none) ∧
    checkPermsWalkFn path (.ok false permBits) = none := by
  refine ⟨rfl, rfl, ?_, ?_, ?_⟩
  · intro h
    simp [checkPermsWalkFn, h]
  · intro h
    simp [checkPermsWalkFn, h]
  · simp [checkPermsWalkFn]

/-- Witness for C7: a directory with mode 0500 (owner write bit missing)
raises the sentinel. -/
theorem checkPermsWalkFn_classification_witness :
    checkPermsWalkFn "/rootfs/a" (.ok true 0o500) = some .restrictivePerm :=
  (checkPermsWalkFn_classification "/rootfs/a" "" 0o500).2.2.1 (by decide)

/-- C2: when the walk over the rootfs raises the permission-violation
sentinel, `checkPerms` returns success after emitting exactly the three fixed
advisory warnings; the sentinel value is never in `checkPerms`'s returned
error; any walk error other than the sentinel is returned unchanged (and a
clean walk returns success with no warnings). -/
theorem checkPerms_sentinel_confined (entries : List (String × EntryAccess)) :
    (PermWalkRaiseError entries checkPermsWalkFn = some WalkErr.restrictivePerm →
      checkPerms entries = (none, [warnRmFails, warnChmodHint, warnFixPermsFlag])) ∧
    (∀ w : WalkErr, w ≠ WalkErr.restrictivePerm →
      PermWalkRaiseError entries checkPermsWalkFn = some w →
      checkPerms entries = (some w, [])) ∧
    (PermWalkRaiseError entries checkPermsWalkFn = none →
      checkPerms entries = (none, [])) ∧
    (checkPerms entries).1 ≠ some WalkErr.restrictivePerm := by
  refine ⟨?_, ?_, ?_, ?_⟩
  · intro h
    simp [checkPerms, h]
  · intro w hw h
    simp [checkPerms, h, hw]
  · intro h
    simp [checkPerms, h]
  · by_cases h : PermWalkRaiseError entries checkPermsWalkFn = some WalkErr.restrictivePerm
    · simp [checkPerms, h]
    · simp [checkPerms, h]

/-- Witness for C2: a walk whose first entry is a directory with mode 0500
raises the sentinel, and `checkPerms` converts it into success plus the three
advisory warnings. -/
theorem checkPerms_sentinel_confined_witness :
    checkPerms [("/rootfs/a", .ok true 0o500)] =
      (none, [warnRmFails, warnChmodHint, warnFixPermsFlag]) :=
  (checkPerms_sentinel_confined [("/rootfs/a", .ok true 0o500)]).1 (by decide)

/-- C3: when the fetched manifest's reported media type is not exactly the OCI
image-manifest type, `unpackRootfs` returns a manifest-type error with an
empty action trace: the external extraction capability is never invoked and no
filesystem mutation (in particular no removal of the pre-existing rootfs path)
occurs. -/
theorem unpackRootfs_wrong_mediaType_no_extraction (env : UnpackEnv) (b : Bundle)
    (decoded : Option Manifest) (mt : String)
    (hl : env.layoutOk = true) (hi : env.imageSourceOk = true)
    (hf : env.fetched = some (decoded, mt)) (hm : mt ≠ MediaTypeImageManifest) :
    unpackRootfs env b = (some (.manifestType mt), [], []) := by
  simp [unpackRootfs, hl, hi, hf, hm]

/-- Witness for C3: a Docker v2 manifest media type is rejected before any
action is taken. -/
theorem unpackRootfs_wrong_mediaType_no_extraction_witness :
    unpackRootfs
      { unprivileged := false, euid := 0, egid := 0, layoutOk := true,
        imageSourceOk := true,
        fetched := some (some zeroManifest, "application/vnd.docker.distribution.manifest.v2+json"),
        unpackOk := true, fixPermsOk := true, rootfsEntries := [] }
      { tmpDir := "/tmp/oci", rootfsPath := "/bundle/rootfs",
        opts := { fixPerms := false, sandboxTarget := false } } =
      (some (.manifestType "application/vnd.docker.distribution.manifest.v2+json"), [], []) :=
  unpackRootfs_wrong_mediaType_no_extraction _ _ (some zeroManifest) _
    rfl rfl rfl (by decide)

/-- C6: after a successful unpack, if `FixPerms` is set the pipeline performs
the recursive permission fix and returns its result with the scanner never
invoked (no scan action in the trace); if `FixPerms` is unset and
`SandboxTarget` is set the scanner runs; if both are unset no post-processing
action follows the unpack call and the pipeline returns success. -/
theorem unpackRootfs_postprocessing_priority (env : UnpackEnv) (b : Bundle)
    (decoded : Option Manifest)
    (hl : env.layoutOk = true) (hi : env.imageSourceOk = true)
    (hf : env.fetched = some (decoded, MediaTypeImageManifest))
    (hu : env.unpackOk = true) :
    (b.opts.fixPerms = true →
      unpackRootfs env b =
        (fixPermsResult env, [warnFixPermsModifies],
          [.removeAll b.rootfsPath,
           .unpackCall b.rootfsPath (normalizeManifest (decoded.getD zeroManifest))
             (buildMapOptions env.unprivileged env.euid env.egid),
           .fixPermsCall b.rootfsPath]) ∧
      Action.checkPermsCall b.rootfsPath ∉ (unpackRootfs env b).2.2) ∧
    (b.opts.fixPerms = false → b.opts.sandboxTarget = true →
      unpackRootfs env b =
        ((checkPerms env.rootfsEntries).1.map .walk, (checkPerms env.rootfsEntries).2,
          [.removeAll b.rootfsPath,
           .unpackCall b.rootfsPath (normalizeManifest (decoded.getD zeroManifest))
             (buildMapOptions env.unprivileged env.euid env.egid),
           .checkPermsCall b.rootfsPath])) ∧
    (b.opts.fixPerms = false → b.opts.sandboxTarget = false →
      unpackRootfs env b =
        (none, [],
          [.removeAll b.rootfsPath,
           .unpackCall b.rootfsPath (normalizeManifest (decoded.getD zeroManifest))
             (buildMapOptions env.unprivileged env.euid env.egid)])) := by
  refine ⟨?_, ?_, ?_⟩
  · intro hfp
    constructor
    · simp [unpackRootfs, hl, hi, hf, hu, hfp]
    · simp [unpackRootfs, hl, hi, hf, hu, hfp]
  · intro hfp hst
    simp [unpackRootfs, hl, hi, hf, hu, hfp, hst]
  · intro hfp hst
    simp [unpackRootfs, hl, hi, hf, hu, hfp, hst]

/-- Witness for C6: with both options set, the trace ends in the permission
fix and contains no scan. -/
theorem unpackRootfs_postprocessing_priority_witness :
    unpackRootfs
      { unprivileged := false, euid := 0, egid := 0, layoutOk := true,
        imageSourceOk := true, fetched := some (some zeroManifest, MediaTypeImageManifest),
        unpackOk := true, fixPermsOk := true, rootfsEntries := [] }
      { tmpDir := "/tmp/oci", rootfsPath := "/bundle/rootfs",
        opts := { fixPerms := true, sandboxTarget := true } } =
      (none, [warnFixPermsModifies],
        [.removeAll "/bundle/rootfs",
         .unpackCall "/bundle/rootfs" (normalizeManifest zeroManifest)
           (buildMapOptions false 0 0),
         .fixPermsCall "/bundle/rootfs"]) :=
  ((unpackRootfs_postprocessing_priority _ _ (some zeroManifest) rfl rfl rfl rfl).1 rfl).1

/-- Shape of the action trace: either empty, or a removal of the bundle's
rootfs path followed directly by the single extraction call, with no further
extraction call afterwards. -/
theorem unpackRootfs_trace_shape (env : UnpackEnv) (b : Bundle) :
    (unpackRootfs env b).2.2 = [] ∨
    ∃ m o post,
      (unpackRootfs env b).2.2 =
        Action.removeAll b.rootfsPath :: Action.unpackCall b.rootfsPath m o :: post ∧
      ∀ (p' : String) (m' : Manifest) (o' : MapOptions),
        Action.unpackCall p' m' o' ∉ post := by
  by_cases hl : env.layoutOk
  · by_cases hi : env.imageSourceOk
    · match hf : env.fetched with
      | none => simp [unpackRootfs, hl, hi, hf]
      | some (decoded, mt) =>
        by_cases hm : mt = MediaTypeImageManifest
        · by_cases hu : env.unpackOk
          · by_cases hfp : b.opts.fixPerms
            · right
              refine ⟨normalizeManifest (decoded.getD zeroManifest),
                buildMapOptions env.unprivileged env.euid env.egid,
                [Action.fixPermsCall b.rootfsPath], ?_, ?_⟩
              · simp [unpackRootfs, hl, hi, hf, hm, hu, hfp]
              · simp
            · by_cases hst : b.opts.sandboxTarget
              · right
                refine ⟨normalizeManifest (decoded.getD zeroManifest),
                  buildMapOptions env.unprivileged env.euid env.egid,
                  [Action.checkPermsCall b.rootfsPath], ?_, ?_⟩
                · simp [unpackRootfs, hl, hi, hf, hm, hu, hfp, hst]
                · simp
              · right
                refine ⟨normalizeManifest (decoded.getD zeroManifest),
                  buildMapOptions env.unprivileged env.euid env.egid, [], ?_, ?_⟩
                · simp [unpackRootfs, hl, hi, hf, hm, hu, hfp, hst]
                · simp
          · right
            refine ⟨normalizeManifest (decoded.getD zeroManifest),
              buildMapOptions env.unprivileged env.euid env.egid, [], ?_, ?_⟩
            · simp [unpackRootfs, hl, hi, hf, hm, hu]
            · simp
        · simp [unpackRootfs, hl, hi, hf, hm]
    · simp [unpackRootfs, hl, hi]
  · simp [unpackRootfs, hl]

/-- C8: whenever the extraction call appears in the action trace, the trace
begins with the removal of any pre-existing tree at the bundle's rootfs path,
immediately followed by that extraction call — so pre-existing content at the
path is removed before the external unpack capability is invoked. -/
theorem unpackRootfs_removeAll_before_unpack (env : UnpackEnv) (b : Bundle)
    (p : String) (m : Manifest) (o : MapOptions)
    (h : Action.unpackCall p m o ∈ (unpackRootfs env b).2.2) :
    ∃ post, (unpackRootfs env b).2.2 =
      Action.removeAll b.rootfsPath :: Action.unpackCall p m o :: post := by
  rcases unpackRootfs_trace_shape env b with h0 | ⟨m', o', post, heq, hno⟩
  · rw [h0] at h
    simp at h
  · rw [heq] at h
    simp at h
    rcases h with ⟨hp, hm, ho⟩ | hmem
    · exact ⟨post, by rw [heq, hp, hm, ho]⟩
    · exact absurd hmem (hno p m o)

/-- Witness for C8: a run that reaches extraction has the removal first and
the extraction call second. -/
theorem unpackRootfs_removeAll_before_unpack_witness :
    ∃ post,
      (unpackRootfs
        { unprivileged := false, euid := 0, egid := 0, layoutOk := true,
          imageSourceOk := true, fetched := some (some zeroManifest, MediaTypeImageManifest),
          unpackOk := true, fixPermsOk := true, rootfsEntries := [] }
        { tmpDir := "/tmp/oci", rootfsPath := "/bundle/rootfs",
          opts := { fixPerms := false, sandboxTarget := false } }).2.2 =
      Action.removeAll "/bundle/rootfs" ::
        Action.unpackCall "/bundle/rootfs" (normalizeManifest zeroManifest)
          (buildMapOptions false 0 0) :: post :=
  unpackRootfs_removeAll_before_unpack _ _ _ _ _ (by decide)

/-- C1 (the claim fails on the code): when the fetched manifest body is
malformed JSON (decoding fails) while the media-type check passes, the
pipeline does not stop with a decode error: line 92 discards
`json.Unmarshal`'s error, so `unpackRootfs` proceeds with the zero-valued
manifest — it removes the rootfs path, invokes extraction on the normalized
zero manifest, and returns success. -/
theorem unpackRootfs_malformed_manifest_not_rejected :
    unpackRootfs
      { unprivileged := false, euid := 0, egid := 0, layoutOk := true,
        imageSourceOk := true, fetched := some (none, MediaTypeImageManifest),
        unpackOk := true, fixPermsOk := true, rootfsEntries := [] }
      { tmpDir := "/tmp/oci", rootfsPath := "/bundle/rootfs",
        opts := { fixPerms := false, sandboxTarget := false } } =
      (none, [],
        [.removeAll "/bundle/rootfs",
         .unpackCall "/bundle/rootfs"
           { schemaVersion := 0,
             config := { mediaType := MediaTypeImageConfig, digest := "", size := 0 },
             layers := [] }
           { rootless := false, uidMappings := [], gidMappings := [] }]) := by
  decide

/-- Sorting with the plain string order gives the same result on any two
lists that are permutations of each other: there is exactly one weakly
increasing arrangement of a multiset of strings. -/
theorem mergeSort_eq_of_perm (l l' : List String) (h : l.Perm l') :
    l.mergeSort = l'.mergeSort :=
  List.eq_of_perm_of_sorted
    ((List.mergeSort_perm l _).trans (h.trans (List.mergeSort_perm l' _).symm))
    (List.sorted_mergeSort' _) (List.sorted_mergeSort' _)

/-- C9: the two-sort sequence of `RemoteList` — the system-remotes-first sort
immediately overwritten by a plain string sort — is observationally equal to a
single plain alphabetical sort: for every configuration of remotes the final
display order of the names is plain lexicographic string order, so the
system-first comparator has no effect on the output.  (By
`mergeSort_eq_of_perm` this holds for any permutation the unstable first sort
could produce, since the first sort is used only through being a permutation
of the input.) -/
theorem remoteList_two_sorts_alphabetical (system : String → Bool)
    (names : List String) :
    remoteListNamesGo system names = remoteListNamesAlphabetical names :=
  mergeSort_eq_of_perm _ _ (List.mergeSort_perm names _)

/-- C10: `RemoteList` opens the user configuration file with the create flag,
so a missing file under an existing writable parent is created empty and the
routine proceeds to a listing (of the merged system remotes only, hence empty
when there are none); the "no remote configurations" error occurs exactly when
the open-with-create call itself fails with a not-exist error, i.e. when the
parent directory is missing too — not merely when the file is absent. -/
theorem remoteList_create_semantics (env : RemoteListEnv) :
    (env.fileExists = false → env.parentOk = true →
      RemoteList env =
        .listing true
          (remoteListNamesGo
            (remoteSystemFlag (env.sysRemotes.map (fun n => (n, true))))
            env.sysRemotes)) ∧
    (RemoteList env = .errNoRemoteConfigurations ↔
      env.fileExists = false ∧ env.parentOk = false) := by
  constructor
  · intro h1 h2
    have hmap : List.map (Prod.fst ∘ fun n : String => (n, true)) env.sysRemotes =
        env.sysRemotes := by
      simp [Function.comp_def]
    simp [RemoteList, openFileCreate, h1, h2, readFromEmptyFile, hmap]
  · cases hfe : env.fileExists
    · cases hpo : env.parentOk
      · simp [RemoteList, openFileCreate, hfe, hpo]
      · simp [RemoteList, openFileCreate, hfe, hpo]
    · cases hpc : env.parsedUserConf
      · simp [RemoteList, openFileCreate, hfe, hpc]
      · simp [RemoteList, openFileCreate, hfe, hpc]

/-- Witness for C10: a missing user config file under a usable parent
directory, with no system remotes, yields a created file and an empty
listing rather than an error. -/
theorem remoteList_create_semantics_witness :
    RemoteList { fileExists := false, parentOk := true, parsedUserConf := none,
                 sysRemotes := [] } = .listing true [] := by
  have h := (remoteList_create_semantics
    { fileExists := false, parentOk := true, parsedUserConf := none,
      sysRemotes := [] }).1 rfl rfl
  simpa [remoteListNamesGo, remoteListNamesAlphabetical, List.mergeSort_nil] using h

end Apptainer
